import Mathlib

/-!
Verification development for the `praxis-redis` wrapper
(`scripts/redis_client.py` and `scripts/test_redis_connection.py`).

The wrapper is a thin facade over an external Redis Stack server.  We embed:
  * the wrapper's own logic (configuration resolution, credential preview,
    try/except error handling, lazy connection lifecycle, truthiness tests)
    directly from the Python source;
  * the external store's behaviour (index set, JSON document store), which is
    not part of this repository, as an explicit state model following the
    specification's description of the store contract.

Python exceptions are embedded as `Except RedisError`; Python `None` as
`Option`; Python truthiness tests (`or`, `if x:`, `if not x:`) are translated
explicitly.
-/

/-- The classes of native errors the underlying redis client library raises,
as far as the wrapper distinguishes them:
`connectionError` stands for `redis.ConnectionError` (and its subclasses),
`responseError msg` for `redis.exceptions.ResponseError` carrying a server
message, `otherError msg` for any other exception class. -/
inductive RedisError where
  | connectionError
  | responseError (msg : String)
  | otherError (msg : String)
deriving DecidableEq, Repr

/-- Modelled from the spec: the response error the store reports when an
index that does not exist is dropped (the "drop-of-a-missing-index" error). -/
def missingIndexError : RedisError := RedisError.responseError "Unknown Index name"

namespace RedisStackClient

/-!
Each public facade method delegates to one underlying client-library call.
We embed each method as a transformer from the outcome of that underlying
call (`Except RedisError α`) to the outcome the caller of the facade sees.
Methods with no `try`/`except` in the source are the identity transformer.
-/

/-- Method `ping`: `try: return self.client.ping() except redis.ConnectionError: return False`. -/
def ping (u : Except RedisError Bool) : Except RedisError Bool :=
  match u with
  | Except.error RedisError.connectionError => Except.ok false
  | r => r

/-- Method `get_info`: `return self.client.info()` — no exception handling. -/
def get_info (u : Except RedisError (List (String × String))) :
    Except RedisError (List (String × String)) := u

/-- Method `get_version`: `info = self.get_info(); return info.get("redis_version", "unknown")`. -/
def get_version (u : Except RedisError (List (String × String))) :
    Except RedisError String :=
  (get_info u).map (fun info =>
    ((info.find? (fun kv => kv.1 == "redis_version")).map Prod.snd).getD "unknown")

/-- Method `get_modules`: `return self.client.module_list()` — no exception handling.
A module is modelled as its `(name, ver)` pair. -/
def get_modules (u : Except RedisError (List (String × String))) :
    Except RedisError (List (String × String)) := u

/-- Method `has_module`: `any(mod.get("name") == module_name for mod in modules)`. -/
def has_module (module_name : String)
    (u : Except RedisError (List (String × String))) : Except RedisError Bool :=
  (get_modules u).map (fun mods => mods.any (fun m => m.1 == module_name))

/-- Method `set`: `return self.client.set(key, value)` — no exception handling. -/
def set (u : Except RedisError Bool) : Except RedisError Bool := u

/-- Method `get`: `return self.client.get(key)` — no exception handling. -/
def get (u : Except RedisError (Option String)) : Except RedisError (Option String) := u

/-- Method `delete`: `return self.client.delete(*keys)` — no exception handling. -/
def delete (u : Except RedisError Nat) : Except RedisError Nat := u

/-- Method `create_search_index`: delegates to `create_index` — no exception handling. -/
def create_search_index (u : Except RedisError Unit) : Except RedisError Unit := u

/-- Method `drop_search_index`:
`try: self.client.ft(index_name).dropindex() except redis.exceptions.ResponseError: pass`.
Every `ResponseError` is swallowed; every other exception class propagates. -/
def drop_search_index (u : Except RedisError Unit) : Except RedisError Unit :=
  match u with
  | Except.error (RedisError.responseError _) => Except.ok ()
  | r => r

/-- Method `add_document`: `return self.client.hset(key, mapping=mapping)` — no handling. -/
def add_document (u : Except RedisError Bool) : Except RedisError Bool := u

/-- Method `search`: delegates to `ft(...).search(query)` — no exception handling.
The result set payload is fixed to a pair (total, docs); only the error
behaviour matters for the contract. -/
def search (u : Except RedisError (Nat × List String)) :
    Except RedisError (Nat × List String) := u

end RedisStackClient

/-! ## Connection configuration (`RedisConfig`) -/

/-- A process environment: maps a variable name to its value when set. -/
def Env : Type := String → Option String

/-- Python `os.getenv(name, default)`. -/
def getenvD (env : Env) (name default : String) : String :=
  (env name).getD default

/-- The settings record built by `RedisConfig.__init__`. -/
structure RedisConfig where
  host : String
  port : Int
  password : Option String
deriving DecidableEq, Repr

/-- Accumulating decimal-digit parser used to model Python `int()`. -/
def digitsToNatAux : List Char → Nat → Option Nat
  | [], acc => some acc
  | c :: ds, acc =>
    if c.isDigit then digitsToNatAux ds (acc * 10 + (c.toNat - '0'.toNat))
    else none

/-- Value of a nonempty decimal digit sequence; `none` on any bad character. -/
def digitsToNat : List Char → Option Nat
  | [] => none
  | ds => digitsToNatAux ds 0

/-- Python `int()` applied to a string: a plain optionally-signed decimal
numeral parses to its value, anything else raises `ValueError` (`none`). -/
def pyInt (s : String) : Option Int :=
  match s.data with
  | '-' :: ds => (digitsToNat ds).map (fun n => -(n : Int))
  | '+' :: ds => (digitsToNat ds).map (fun n => (n : Int))
  | ds => (digitsToNat ds).map (fun n => (n : Int))

/-- Assignment `self.port = int(port or os.getenv("REDIS_PORT", "6379"))`.
Python `or` keeps `port` only when truthy (an `int` is truthy iff nonzero);
`int()` applied to an `int` is the identity, and applied to the fallback
string it parses a decimal numeral or raises `ValueError` (`none`). -/
def resolvePort (port : Option Int) (env : Env) : Option Int :=
  match port with
  | some p => if p = 0 then pyInt (getenvD env "REDIS_PORT" "6379") else some p
  | none => pyInt (getenvD env "REDIS_PORT" "6379")

/-- Assignment `self.host = host or os.getenv("REDIS_HOST", "localhost")`:
an explicit host is kept only when truthy (a `str` is truthy iff nonempty). -/
def resolveHost (host : Option String) (env : Env) : String :=
  match host with
  | some h => if h = "" then getenvD env "REDIS_HOST" "localhost" else h
  | none => getenvD env "REDIS_HOST" "localhost"

/-- Assignment `self.password = password or os.getenv("REDIS_PASSWORD")`. -/
def resolvePassword (password : Option String) (env : Env) : Option String :=
  match password with
  | some s => if s = "" then env "REDIS_PASSWORD" else some s
  | none => env "REDIS_PASSWORD"

/-- Constructor `RedisConfig.__init__(host, port, password)`; `none` means the `int()`
conversion of the port raised. -/
def RedisConfig.init (host : Option String) (port : Option Int)
    (password : Option String) (env : Env) : Option RedisConfig :=
  (resolvePort port env).map (fun p =>
    { host := resolveHost host env, port := p,
      password := resolvePassword password env })

/-- Method `get_password_preview`: `"None"` when the stored credential is falsy
(`None` or the empty string), else first character + `"*" * (len - 1)`. -/
def get_password_preview (password : Option String) : String :=
  match password with
  | none => "None"
  | some p =>
    if p = "" then "None"
    else String.mk (p.data.take 1) ++ String.mk (List.replicate (p.length - 1) '*')

/-- Modelled from the spec: `python-dotenv`'s `load_dotenv` merges the file's
variables into the process environment without overwriting any variable that
is already set. -/
def load_dotenv (env : Env) (fileVars : List (String × String)) : Env :=
  fun k =>
    match env k with
    | some v => some v
    | none => ((fileVars.find? (fun kv => kv.1 == k)).map Prod.snd)

/-- Classmethod `RedisConfig.from_env(env_path)`: raises `FileNotFoundError` with a
remediation hint when the file is absent at the given (or default) path;
otherwise loads the dotenv file into the environment and calls `cls()`.
`env_path` is the resolved path string, `fileExists` whether a file is there,
`fileVars` its key/value lines.  The outer `Except` is the
`FileNotFoundError`; the inner `Option` is `__init__`'s possible
`ValueError`. -/
def RedisConfig.from_env (env_path : String) (fileExists : Bool)
    (fileVars : List (String × String)) (env : Env) :
    Except String (Option RedisConfig) :=
  if fileExists then
    Except.ok (RedisConfig.init none none none (load_dotenv env fileVars))
  else
    Except.error (".env file not found at " ++ env_path ++
      ". Please copy .env.example to .env and set your configuration")

/-! ## Search-index store model and idempotent drop -/

/-- Modelled from the spec: the slice of store state the index commands
touch — the set of existing index names. -/
structure IndexStore where
  indexes : List String
deriving DecidableEq, Repr

/-- Modelled from the spec: the underlying `FT.DROPINDEX` command.  Dropping
an existing index removes it; dropping a missing index leaves the store
unchanged and raises the missing-index response error. -/
def storeDropIndex (st : IndexStore) (name : String) :
    Except RedisError Unit × IndexStore :=
  if name ∈ st.indexes then
    (Except.ok (), { indexes := st.indexes.filter (fun n => n ≠ name) })
  else
    (Except.error missingIndexError, st)

/-- The full `drop_search_index` operation: runs the underlying command on
the store, then applies the wrapper's `except ResponseError: pass`. -/
def drop_search_index_op (st : IndexStore) (name : String) :
    Except RedisError Unit × IndexStore :=
  let (r, st') := storeDropIndex st name
  (RedisStackClient.drop_search_index r, st')

/-! ## Lazy connection lifecycle (`client` property, `close`, context manager) -/

/-- The facade's mutable connection state.  A live `redis.Redis` object is
modelled by a numeric handle id; `nextHandle` is a freshness counter so that
a newly constructed connection is distinguishable from any earlier one. -/
structure ClientState where
  nextHandle : Nat
  _client : Option Nat
deriving DecidableEq, Repr

/-- Well-formedness of `ClientState`: any held handle was produced by the
freshness counter. -/
def ClientState.WF (s : ClientState) : Prop :=
  ∀ h, s._client = some h → h < s.nextHandle

/-- The `client` property: `if self._client is None: self._client = redis.Redis(...)`;
returns the handle together with the updated state. -/
def clientProperty (s : ClientState) : Nat × ClientState :=
  match s._client with
  | some h => (h, s)
  | none => (s.nextHandle, { nextHandle := s.nextHandle + 1, _client := some s.nextHandle })

/-- Method `close`: `if self._client: self._client.close(); self._client = None`. -/
def close (s : ClientState) : ClientState :=
  match s._client with
  | some _ => { s with _client := none }
  | none => s

/-- Method `__enter__`: `return self`. -/
def enterCM (s : ClientState) : ClientState := s

/-- Method `__exit__(exc_type, exc_val, exc_tb)`: calls `self.close()` regardless of
the exception information (`none` models a normal exit, `some e` an exit via
error `e`). -/
def exitCM (s : ClientState) (excInfo : Option RedisError) : ClientState :=
  match excInfo with
  | _ => close s

/-! ## JSON document store model (`json_set` / `json_get`) -/

/-- JSON values as the wrapper's callers see them (numbers restricted to
integers; the round-trip contract is shape-generic, so this loses nothing
the claims need). -/
inductive Json where
  | null
  | bool (b : Bool)
  | num (n : Int)
  | str (s : String)
  | arr (items : List Json)
  | obj (fields : List (String × Json))
deriving Repr

/-- The JSON-capable keyspace: each key optionally holds a document. -/
def JStore : Type := String → Option Json

/-- Split a character sequence into the dot-separated field names. -/
def splitDotAux : List Char → List Char → List String
  | [], acc => [String.mk acc.reverse]
  | c :: cs, acc =>
    if c = '.' then String.mk acc.reverse :: splitDotAux cs []
    else splitDotAux cs (c :: acc)

/-- Parse a RedisJSON root-anchored dotted path: `"$"` is the root,
`"$.a.b"` the field chain `[a, b]`; anything else is unsupported here. -/
def parsePath (p : String) : Option (List String) :=
  match p.data with
  | ['$'] => some []
  | '$' :: '.' :: rest => some (splitDotAux rest [])
  | _ => none

/-- All nodes of a document matched by a field chain (zero or one for the
plain dotted paths modelled here). -/
def jsonLookup : Json → List String → List Json
  | v, [] => [v]
  | Json.obj fields, f :: rest =>
    match (fields.find? (fun kv => kv.1 == f)).map Prod.snd with
    | some child => jsonLookup child rest
    | none => []
  | _, _ :: _ => []

/-- Replace the document node addressed by a field chain (the parent object
must exist; a missing final field is created).  `none` models the store
rejecting the write. -/
def jsonSetAt : Json → List String → Json → Option Json
  | _, [], v => some v
  | Json.obj fields, f :: rest, v =>
    match (fields.find? (fun kv => kv.1 == f)).map Prod.snd with
    | some child =>
      (jsonSetAt child rest v).map (fun c =>
        Json.obj (fields.map (fun kv => if kv.1 == f then (kv.1, c) else kv)))
    | none =>
      match rest with
      | [] => some (Json.obj (fields ++ [(f, v)]))
      | _ :: _ => none
  | _, _ :: _, _ => none

/-- Modelled from the spec: the underlying `JSON.SET key path value` command.
A root write creates or replaces the document; a deeper write updates an
existing document.  `none` models a native store error (bad path, missing
document); `true` is the store's OK reply. -/
def storeJsonSet (st : JStore) (key path : String) (v : Json) :
    Option (JStore × Bool) :=
  match parsePath path with
  | none => none
  | some [] => some (fun k => if k = key then some v else st k, true)
  | some fields =>
    match st key with
    | none => none
    | some doc =>
      (jsonSetAt doc fields v).map (fun doc' =>
        (fun k => if k = key then some doc' else st k, true))

/-- Modelled from the spec: `JSON.GET key` with no path — the whole document,
or nil when the key is absent. -/
def storeJsonGetWhole (st : JStore) (key : String) : Option Json := st key

/-- Modelled from the spec: `JSON.GET key path` — the store wraps the
path-matched nodes in a sequence, one element per match.  `none` models
a nil reply (absent key) or a native path error. -/
def storeJsonGetPath (st : JStore) (key path : String) : Option Json :=
  match st key, parsePath path with
  | some doc, some fields => some (Json.arr (jsonLookup doc fields))
  | _, _ => none

/-- Python truthiness of the optional `path` argument: truthy iff present
and nonempty. -/
def pyTruthy (path : Option String) : Bool :=
  match path with
  | none => false
  | some s => s ≠ ""

/-- Method `json_set(key, path, value)`: `return self.client.json().set(key, path, value)`. -/
def json_set (st : JStore) (key path : String) (v : Json) : Option (JStore × Bool) :=
  storeJsonSet st key path v

/-- Method `json_get(key, path=None)`:
`if path: return self.client.json().get(key, path)` else
`return self.client.json().get(key)` — the dispatch tests truthiness, so an
empty-string path takes the no-path branch. -/
def json_get (st : JStore) (key : String) (path : Option String) : Option Json :=
  if pyTruthy path then storeJsonGetPath st key (path.getD "")
  else storeJsonGetWhole st key

/-! ## Diagnostic probe retry loop (`wait_for_redis`) -/

/-- The possible outcomes of one `redis_client.ping()` call inside the probe
loop: the call returns a truthy value, returns a falsy value, raises
`redis.ConnectionError`, or raises some other exception. -/
inductive PingOutcome where
  | ok
  | falsy
  | connErr
  | otherErr (msg : String)
deriving DecidableEq, Repr

/-- The observable trace of a `wait_for_redis` run: the value returned (or
the exception propagated), how many `ping` calls were made, and the total
seconds spent in `time.sleep`. -/
structure ProbeTrace where
  result : Except String Bool
  pings : Nat
  sleepSeconds : Nat
deriving Repr

/-- The body of `for attempt in range(max_retries)` in `wait_for_redis`,
recursing over the remaining attempt indices:

```
try:
    if redis_client.ping(): return True
except redis.ConnectionError:
    if attempt < max_retries - 1:
        ...; time.sleep(delay)
    continue
return False  # after the loop
```

A falsy `ping` falls through to the next iteration with no sleep; a
`ConnectionError` sleeps `delay` seconds unless this was the last attempt;
any other exception propagates out of the function. -/
def waitLoop (outcomes : Nat → PingOutcome) (max_retries delay : Nat) :
    List Nat → ProbeTrace
  | [] => { result := Except.ok false, pings := 0, sleepSeconds := 0 }
  | attempt :: rest =>
    match outcomes attempt with
    | PingOutcome.ok => { result := Except.ok true, pings := 1, sleepSeconds := 0 }
    | PingOutcome.falsy =>
      let t := waitLoop outcomes max_retries delay rest
      { t with pings := t.pings + 1 }
    | PingOutcome.connErr =>
      let t := waitLoop outcomes max_retries delay rest
      if attempt < max_retries - 1 then
        { t with pings := t.pings + 1, sleepSeconds := t.sleepSeconds + delay }
      else
        { t with pings := t.pings + 1 }
    | PingOutcome.otherErr msg =>
      { result := Except.error msg, pings := 1, sleepSeconds := 0 }

/-- Function `wait_for_redis(redis_client, max_retries=5, delay=2)`, with the client's
`ping` behaviour on attempt `i` given by `outcomes i`. -/
def wait_for_redis (outcomes : Nat → PingOutcome) (max_retries : Nat := 5)
    (delay : Nat := 2) : ProbeTrace :=
  waitLoop outcomes max_retries delay (List.range max_retries)

/-- Method `json_set` as an outcome transformer:
`return self.client.json().set(key, path, value)` — no exception handling,
so the underlying command's outcome is returned unchanged. -/
def RedisStackClient.json_set (u : Except RedisError Bool) :
    Except RedisError Bool := u

/-- Method `json_get` as an outcome transformer: the truthiness test picks
which underlying `JSON.GET` call runs (`uPath` with a path, `uWhole`
without); there is no exception handling, so that call's outcome — error or
value — is returned unchanged. -/
def RedisStackClient.json_get (path : Option String)
    (uPath uWhole : Except RedisError (Option Json)) :
    Except RedisError (Option Json) :=
  if pyTruthy path then uPath else uWhole

/-- Method `close` with a fallible underlying `self._client.close()` call,
`u` being that call's outcome: with a handle held, an error from the
underlying call propagates and the clearing assignment is never reached; on
success the handle is cleared.  With no handle held, nothing runs and the
method returns normally. -/
def RedisStackClient.close (s : ClientState) (u : Except RedisError Unit) :
    Except RedisError Unit × ClientState :=
  match s._client with
  | some _ =>
    match u with
    | Except.ok _ => (Except.ok (), { s with _client := none })
    | Except.error e => (Except.error e, s)
  | none => (Except.ok (), s)

/-! ## Theorems -/

/-- C3: for every credential string `c` with length ≥ 1, the masked preview
is the first character of `c` followed by `len(c) - 1` asterisks, and with no
credential set the preview is the literal string `"None"`. -/
theorem C3_password_preview :
    (∀ c : String, 1 ≤ c.length →
      ∃ first rest, c.data = first :: rest ∧
        get_password_preview (some c) =
          String.mk (first :: List.replicate (c.length - 1) '*')) ∧
    get_password_preview none = "None" := by
  constructor
  · intro c hc
    match hdata : c.data with
    | [] =>
      exfalso
      have : c.length = 0 := by simp [String.length, hdata]
      omega
    | first :: rest =>
      refine ⟨first, rest, rfl, ?_⟩
      have hne : c ≠ "" := by
        intro h
        rw [h] at hdata
        exact absurd hdata (by simp)
      show get_password_preview (some c) = _
      simp only [get_password_preview, hne, if_false]
      have : c.data.take 1 = [first] := by rw [hdata]; rfl
      rw [this]
      rfl
  · rfl

/-- Witness for C3 at the spec's own example credential `"secret123"`. -/
theorem C3_password_preview_witness :
    ∃ first rest, "secret123".data = first :: rest ∧
      get_password_preview (some "secret123") =
        String.mk (first :: List.replicate ("secret123".length - 1) '*') :=
  C3_password_preview.1 "secret123" (by decide)

/-- C10: calling `json_get` with the empty string as path behaves exactly
like omitting the path — the truthiness test sends it to the whole-document
read. -/
theorem C10_empty_path_reads_whole_document :
    ∀ (st : JStore) (key : String),
      json_get st key (some "") = json_get st key none ∧
      json_get st key (some "") = st key := by
  intro st key
  constructor <;> rfl

/-- C1 counterexample: the claim says every native failure other than the
missing-index error surfaces untouched from `dropSearchIndex`, but the
wrapper's `except redis.exceptions.ResponseError: pass` swallows a response
error that is not the missing-index error (here a syntax error). -/
theorem C1_counterexample_drop_swallows_other_response_errors :
    RedisStackClient.drop_search_index
        (Except.error (RedisError.responseError "Syntax error at offset 1")) =
      Except.ok () ∧
    RedisError.responseError "Syntax error at offset 1" ≠ missingIndexError :=
  ⟨rfl, by decide⟩

/-- C1 (amended): every public facade operation (`ping`, `get_info`,
`get_version`, `get_modules`, `has_module`, `set`, `get`, `delete`,
`create_search_index`, `drop_search_index`, `add_document`, `search`,
`json_set`, `json_get`, `close`) passes the underlying command's outcome
through unchanged, with exactly two exceptions: `ping` converts a connection
failure into `false` (all other failures propagate), and `drop_search_index`
suppresses every response-class error — not only the missing-index one —
while non-response failures propagate untouched (a failing underlying close
additionally leaves the handle in place, as the clearing assignment is never
reached). -/
theorem C1_error_propagation :
    (RedisStackClient.ping (Except.error RedisError.connectionError) =
      Except.ok false) ∧
    (∀ m, RedisStackClient.ping (Except.error (RedisError.responseError m)) =
      Except.error (RedisError.responseError m)) ∧
    (∀ m, RedisStackClient.ping (Except.error (RedisError.otherError m)) =
      Except.error (RedisError.otherError m)) ∧
    (∀ b, RedisStackClient.ping (Except.ok b) = Except.ok b) ∧
    (∀ m, RedisStackClient.drop_search_index
        (Except.error (RedisError.responseError m)) = Except.ok ()) ∧
    (RedisStackClient.drop_search_index (Except.error RedisError.connectionError) =
      Except.error RedisError.connectionError) ∧
    (∀ m, RedisStackClient.drop_search_index
        (Except.error (RedisError.otherError m)) =
      Except.error (RedisError.otherError m)) ∧
    (∀ u, RedisStackClient.get_info u = u) ∧
    (∀ e, RedisStackClient.get_version (Except.error e) = Except.error e) ∧
    (∀ u, RedisStackClient.get_modules u = u) ∧
    (∀ n e, RedisStackClient.has_module n (Except.error e) = Except.error e) ∧
    (∀ u, RedisStackClient.set u = u) ∧
    (∀ u, RedisStackClient.get u = u) ∧
    (∀ u, RedisStackClient.delete u = u) ∧
    (∀ u, RedisStackClient.create_search_index u = u) ∧
    (∀ u, RedisStackClient.add_document u = u) ∧
    (∀ u, RedisStackClient.search u = u) ∧
    (∀ st key path v, json_set st key path v = storeJsonSet st key path v) ∧
    (∀ u, RedisStackClient.json_set u = u) ∧
    (∀ path e, RedisStackClient.json_get path
        (Except.error e) (Except.error e) = Except.error e) ∧
    (∀ path u, RedisStackClient.json_get path u u = u) ∧
    (∀ n h e, RedisStackClient.close { nextHandle := n, _client := some h }
        (Except.error e) =
      (Except.error e, { nextHandle := n, _client := some h })) ∧
    (∀ n h, RedisStackClient.close { nextHandle := n, _client := some h }
        (Except.ok ()) = (Except.ok (), { nextHandle := n, _client := none })) ∧
    (∀ n u, RedisStackClient.close { nextHandle := n, _client := none } u =
      (Except.ok (), { nextHandle := n, _client := none })) := by
  refine ⟨rfl, fun m => rfl, fun m => rfl, fun b => rfl, fun m => rfl, rfl,
    fun m => rfl, fun u => rfl, fun e => rfl, fun u => rfl, fun n e => rfl,
    fun u => rfl, fun u => rfl, fun u => rfl, fun u => rfl, fun u => rfl,
    fun u => rfl, fun st key path v => rfl, fun u => rfl,
    fun path e => ite_self _, fun path u => ite_self _,
    fun n h e => rfl, fun n h => rfl, fun n u => rfl⟩

/-- C2 counterexample: with an explicit empty host and an explicit port 0,
the constructor's truthiness-based `or` falls back to the environment
variables (`env-host`, `7000`) instead of using the explicit values, so the
claimed precedence fails for falsy explicit arguments. -/
theorem C2_counterexample_falsy_explicit_arguments :
    RedisConfig.init (some "") (some 0) none
        (fun k => if k = "REDIS_HOST" then some "env-host"
                  else if k = "REDIS_PORT" then some "7000" else none) =
      some { host := "env-host", port := 7000, password := none } ∧
    ("env-host" : String) ≠ "" ∧ (7000 : Int) ≠ 0 := by
  refine ⟨by decide, by decide, by decide⟩

/-- C2 (amended): a truthy explicit constructor argument (nonempty host,
nonzero port, nonempty credential) takes precedence over the environment,
which takes precedence over the defaults (`localhost`, `6379`, none); a
falsy explicit argument (empty string, port 0) is treated as absent and
falls through to the environment variable, then the default. -/
theorem C2_resolution_precedence (host : Option String) (port : Option Int)
    (password : Option String) (env : Env) (cfg : RedisConfig)
    (hcfg : RedisConfig.init host port password env = some cfg) :
    (∀ h, host = some h → h ≠ "" → cfg.host = h) ∧
    ((host = none ∨ host = some "") →
      cfg.host = (env "REDIS_HOST").getD "localhost") ∧
    (∀ p, port = some p → p ≠ 0 → cfg.port = p) ∧
    ((port = none ∨ port = some 0) →
      some cfg.port = pyInt ((env "REDIS_PORT").getD "6379")) ∧
    (∀ s, password = some s → s ≠ "" → cfg.password = some s) ∧
    ((password = none ∨ password = some "") →
      cfg.password = env "REDIS_PASSWORD") := by
  obtain ⟨p0, hp0, hcfg'⟩ := Option.map_eq_some'.mp hcfg
  subst hcfg'
  refine ⟨?_, ?_, ?_, ?_, ?_, ?_⟩
  · intro h hh hne
    subst hh
    simp [resolveHost, hne]
  · rintro (hh | hh) <;> subst hh <;> simp [resolveHost, getenvD]
  · intro p hp hne
    subst hp
    simp only [resolvePort, if_neg hne] at hp0
    simpa using hp0.symm
  · rintro (hp | hp) <;> subst hp <;>
      simpa [resolvePort, getenvD] using hp0.symm
  · intro s hs hne
    subst hs
    simp [resolvePassword, hne]
  · rintro (hs | hs) <;> subst hs <;> simp [resolvePassword]

/-- Witness for C2 at a concrete truthy configuration: explicit arguments
`("param-host", 6381, "param-password")` beat an environment that sets all
three variables. -/
theorem C2_resolution_precedence_witness :
    RedisConfig.host { host := "param-host", port := 6381,
                       password := some "param-password" } = "param-host" :=
  (C2_resolution_precedence (some "param-host") (some 6381)
      (some "param-password")
      (fun k => if k = "REDIS_HOST" then some "env-host"
                else if k = "REDIS_PORT" then some "6380"
                else if k = "REDIS_PASSWORD" then some "env-password" else none)
      { host := "param-host", port := 6381, password := some "param-password" }
      rfl).1 "param-host" rfl (by decide)

/-- C4: dropping a missing index returns normally without raising, and a
second drop of the same name has the same observable outcome (return value
and store state) as a single drop. -/
theorem C4_drop_search_index_idempotent (st : IndexStore) (name : String) :
    (name ∉ st.indexes → drop_search_index_op st name = (Except.ok (), st)) ∧
    (drop_search_index_op st name).1 = Except.ok () ∧
    drop_search_index_op (drop_search_index_op st name).2 name =
      (Except.ok (), (drop_search_index_op st name).2) := by
  by_cases hmem : name ∈ st.indexes
  · have hafter : name ∉ (st.indexes.filter (fun n => n ≠ name)) := by
      simp [List.mem_filter]
    refine ⟨fun hno => absurd hmem hno, ?_, ?_⟩
    · simp [drop_search_index_op, storeDropIndex, hmem,
        RedisStackClient.drop_search_index]
    · simp [drop_search_index_op, storeDropIndex, hmem, hafter,
        missingIndexError, RedisStackClient.drop_search_index]
  · refine ⟨fun _ => ?_, ?_, ?_⟩ <;>
      simp [drop_search_index_op, storeDropIndex, hmem, missingIndexError,
        RedisStackClient.drop_search_index]

/-- Witness for C4: dropping the index `"blog-idx"` on an empty store
returns normally and leaves the store unchanged. -/
theorem C4_drop_search_index_idempotent_witness :
    drop_search_index_op { indexes := [] } "blog-idx" =
      (Except.ok (), { indexes := [] }) :=
  (C4_drop_search_index_idempotent { indexes := [] } "blog-idx").1
    (by simp)

/-- C5: entering a managed block returns the client itself; exiting — with
or without an error — calls `close()`, which clears the connection handle;
the next `client` access lazily creates a handle that is distinct from any
handle held before the block exited. -/
theorem C5_scoped_acquisition (s : ClientState) (excInfo : Option RedisError) :
    enterCM s = s ∧
    exitCM s excInfo = close s ∧
    (exitCM s excInfo)._client = none ∧
    clientProperty (exitCM s excInfo) =
      ((exitCM s excInfo).nextHandle,
        { nextHandle := (exitCM s excInfo).nextHandle + 1,
          _client := some (exitCM s excInfo).nextHandle }) ∧
    (∀ h, s._client = some h → s.WF →
      (clientProperty (exitCM s excInfo)).1 ≠ h) := by
  have hclose : (close s)._client = none := by
    cases hc : s._client <;> simp [close, hc]
  have hnext : (close s).nextHandle = s.nextHandle := by
    cases hc : s._client <;> simp [close, hc]
  refine ⟨rfl, rfl, hclose, ?_, ?_⟩
  · cases hc : s._client <;> simp [exitCM, close, clientProperty, hc]
  · intro h hh hwf
    have hlt : h < s.nextHandle := hwf h hh
    show (clientProperty (close s)).1 ≠ h
    simp [clientProperty, hclose, hnext]
    omega

/-- Witness for C5: a client holding handle 0 (freshness counter 1) exits a
managed block; the next access creates a different handle. -/
theorem C5_scoped_acquisition_witness :
    (clientProperty (exitCM { nextHandle := 1, _client := some 0 } none)).1 ≠ 0 :=
  (C5_scoped_acquisition { nextHandle := 1, _client := some 0 } none).2.2.2.2 0
    rfl (by intro h hh; simp_all)

/-- C6: writing any JSON value at the root path `"$"` succeeds with the
store's OK reply, and a subsequent read with no path yields the value back
unchanged. -/
theorem C6_json_root_roundtrip (st : JStore) (key : String) (v : Json) :
    ∃ st', json_set st key "$" v = some (st', true) ∧
      json_get st' key none = some v := by
  refine ⟨fun k => if k = key then some v else st k, ?_, ?_⟩
  · rfl
  · simp [json_get, pyTruthy, storeJsonGetWhole]

/-- A truthy (nonempty) path argument sends `json_get` to the path read. -/
theorem jsonGet_truthy (st : JStore) (key p : String) (hp : p ≠ "") :
    json_get st key (some p) = storeJsonGetPath st key p := by
  simp [json_get, pyTruthy, hp]

/-- Unfolding lemma for `storeJsonGetPath`. -/
theorem storeJsonGetPath_run (st : JStore) (key p : String) :
    storeJsonGetPath st key p =
      match st key, parsePath p with
      | some doc, some fields => some (Json.arr (jsonLookup doc fields))
      | _, _ => none := rfl

/-- C7: after writing `{"profile": {"age": 30}}` at the root, reading the
point path `"$.profile.age"` yields the single-element list `[30]`, not the
bare scalar `30`. -/
theorem C7_path_read_is_list_wrapped (st : JStore) (key : String) :
    ∃ st',
      json_set st key "$"
          (Json.obj [("profile", Json.obj [("age", Json.num 30)])]) =
        some (st', true) ∧
      json_get st' key (some "$.profile.age") =
        some (Json.arr [Json.num 30]) ∧
      json_get st' key (some "$.profile.age") ≠ some (Json.num 30) := by
  refine ⟨fun k => if k = key then
      some (Json.obj [("profile", Json.obj [("age", Json.num 30)])]) else st k,
    rfl, ?_, ?_⟩
  · rw [jsonGet_truthy _ _ _ (by decide), storeJsonGetPath_run]
    rw [show parsePath "$.profile.age" = some ["profile", "age"] from rfl]
    simp [jsonLookup]
  · rw [jsonGet_truthy _ _ _ (by decide), storeJsonGetPath_run]
    rw [show parsePath "$.profile.age" = some ["profile", "age"] from rfl]
    simp [jsonLookup]

/-- C8: the settings-file constructor fails, with the remediation hint in
the message, exactly when the file is absent; on success it builds the
settings the normal way over an environment into which the file's variables
were merged without overwriting any variable already set. -/
theorem C8_from_env_contract (env_path : String) (fileExists : Bool)
    (fileVars : List (String × String)) (env : Env) :
    ((RedisConfig.from_env env_path fileExists fileVars env =
        Except.error (".env file not found at " ++ env_path ++
          ". Please copy .env.example to .env and set your configuration")) ↔
      fileExists = false) ∧
    (fileExists = true →
      RedisConfig.from_env env_path fileExists fileVars env =
        Except.ok (RedisConfig.init none none none
          (load_dotenv env fileVars))) ∧
    (∀ k v, env k = some v → load_dotenv env fileVars k = some v) := by
  refine ⟨?_, ?_, ?_⟩
  · cases fileExists <;> simp [RedisConfig.from_env]
  · intro h
    subst h
    rfl
  · intro k v hk
    simp [load_dotenv, hk]

/-- Witness for C8: a present file whose `REDIS_HOST` line does not
overwrite the variable already set in the process environment. -/
theorem C8_from_env_contract_witness :
    load_dotenv (fun k => if k = "REDIS_HOST" then some "already-set" else none)
      [("REDIS_HOST", "from-file")] "REDIS_HOST" = some "already-set" :=
  (C8_from_env_contract "/repo/.env" true [("REDIS_HOST", "from-file")]
      (fun k => if k = "REDIS_HOST" then some "already-set" else none)).2.2
    "REDIS_HOST" "already-set" rfl

/-- The loop body makes at most one ping per remaining attempt. -/
theorem waitLoop_pings_le (o : Nat → PingOutcome) (m d : Nat) :
    ∀ l : List Nat, (waitLoop o m d l).pings ≤ l.length := by
  intro l
  induction l with
  | nil => simp [waitLoop]
  | cons a rest ih =>
    cases h : o a
    case ok => simp [waitLoop, h]
    case falsy =>
      simp only [waitLoop, h, List.length_cons]
      omega
    case connErr =>
      simp only [waitLoop, h, List.length_cons]
      split <;> simp <;> omega
    case otherErr msg =>
      simp [waitLoop, h]

/-- C9 counterexample: the claim's "fixed 2-second delay between consecutive
failed attempts" fails when ping fails by returning a falsy value instead of
raising: a run of five falsy pings gives up after five attempts with zero
seconds of sleep, not 2 seconds between each consecutive pair. -/
theorem C9_counterexample_no_delay_on_falsy_ping :
    ¬ (∀ outcomes : Nat → PingOutcome,
        (wait_for_redis outcomes).result = Except.ok false →
        (wait_for_redis outcomes).sleepSeconds =
          2 * ((wait_for_redis outcomes).pings - 1)) := by
  intro hclaim
  have hrun : wait_for_redis (fun _ => PingOutcome.falsy) =
      { result := Except.ok false, pings := 5, sleepSeconds := 0 } := rfl
  have h := hclaim (fun _ => PingOutcome.falsy) (by rw [hrun])
  rw [hrun] at h
  simp at h

/-- C9 (amended): the probe loop pings at most 5 times and returns success
as soon as an attempt succeeds; a fixed 2-second delay separates consecutive
attempts only when the failure was a connection error (and not after the
final attempt) — an attempt whose ping returns falsy retries immediately
with no delay.  In particular five connection errors give up after 5 pings
and 8 seconds of sleeping, five falsy pings give up after 5 pings and no
sleeping, and success on attempt `k` after `k` connection errors arrives
after `2 * k` seconds of sleeping. -/
theorem C9_retry_loop (outcomes : Nat → PingOutcome) (k : Nat) (hk : k < 5)
    (hpre : ∀ j, j < k → outcomes j = PingOutcome.connErr)
    (hok : outcomes k = PingOutcome.ok) :
    (∀ o : Nat → PingOutcome, (wait_for_redis o).pings ≤ 5) ∧
    (wait_for_redis (fun _ => PingOutcome.connErr) =
      { result := Except.ok false, pings := 5, sleepSeconds := 8 }) ∧
    (wait_for_redis (fun _ => PingOutcome.falsy) =
      { result := Except.ok false, pings := 5, sleepSeconds := 0 }) ∧
    ((wait_for_redis outcomes).result = Except.ok true ∧
      (wait_for_redis outcomes).pings = k + 1 ∧
      (wait_for_redis outcomes).sleepSeconds = 2 * k) := by
  have hrange : List.range 5 = [0, 1, 2, 3, 4] := rfl
  refine ⟨fun o => ?_, rfl, rfl, ?_⟩
  · have := waitLoop_pings_le o 5 2 (List.range 5)
    simpa [wait_for_redis] using this
  · unfold wait_for_redis
    rw [hrange]
    interval_cases k
    · simp [waitLoop, hok]
    · have h0 := hpre 0 (by omega)
      simp [waitLoop, h0, hok]
    · have h0 := hpre 0 (by omega)
      have h1 := hpre 1 (by omega)
      simp [waitLoop, h0, h1, hok]
    · have h0 := hpre 0 (by omega)
      have h1 := hpre 1 (by omega)
      have h2 := hpre 2 (by omega)
      simp [waitLoop, h0, h1, h2, hok]
    · have h0 := hpre 0 (by omega)
      have h1 := hpre 1 (by omega)
      have h2 := hpre 2 (by omega)
      have h3 := hpre 3 (by omega)
      simp [waitLoop, h0, h1, h2, h3, hok]

/-- Witness for C9: one connection error followed by a successful ping —
the probe returns success after 2 pings and a single 2-second sleep. -/
theorem C9_retry_loop_witness :
    (wait_for_redis
        (fun n => if n = 0 then PingOutcome.connErr else PingOutcome.ok)).result =
      Except.ok true ∧
    (wait_for_redis
        (fun n => if n = 0 then PingOutcome.connErr else PingOutcome.ok)).pings = 2 ∧
    (wait_for_redis
        (fun n => if n = 0 then PingOutcome.connErr else PingOutcome.ok)).sleepSeconds =
      2 :=
  (C9_retry_loop (fun n => if n = 0 then PingOutcome.connErr else PingOutcome.ok)
    1 (by omega)
    (fun j hj => by
      have : j = 0 := by omega
      subst this
      rfl)
    rfl).2.2.2
